import Mathlib

/-!
Verification of the transport and process-lifecycle subsystem of
`template_project/microtvm_api_server.py` (the microTVM OVPsim project API
server).  The Python source is shallowly embedded below: pure computations
become Lean functions, and the effectful methods of `Handler`
(`open_transport`, `close_transport`, `read_transport`, `write_transport`,
`_fvp_check_stdout`, `_wait_for_fvp`, `_await_ready`) become explicit
state-passing functions that also record the externally observable actions
they perform (prints, sleeps, fifo creation, terminal input, process spawn,
delegated I/O calls).  External collaborators (the OS `select`, the
`server.write_with_timeout` helper of the tvm package) are oracles passed in
as function parameters.
-/

namespace MicrotvmApiServer

/-- Exceptions that the embedded code can raise.  `osError` stands for the raw
`OSError`/`FileExistsError` that `os.mkfifo` raises, `timeoutError` for the
builtin `TimeoutError`, `ioTimeoutError` for `server.IoTimeoutError`, and
`transportClosedError` for `server.TransportClosedError`. -/
inductive PyError where
  | osError (path : String)
  | timeoutError (msg : String)
  | ioTimeoutError
  | transportClosedError
deriving DecidableEq

/-- Translated from `server.TransportTimeouts` as constructed at
`microtvm_api_server.py:376-380`. -/
structure TransportTimeouts where
  session_start_retry_timeout_sec : Nat
  session_start_timeout_sec : Nat
  session_established_timeout_sec : Nat
deriving DecidableEq

/-- The mutable `Handler` attributes relevant to the transport session:
`self._proc` (child-process handle, `None` when closed), `self.read_fd` and
`self.write_fd` (pipe descriptors).  Process handles and descriptors are
modelled as distinguishing tokens (`Nat`). -/
structure HandlerState where
  proc : Option Nat
  read_fd : Option Nat
  write_fd : Option Nat
deriving DecidableEq

/-- Externally observable steps taken by the embedded methods, in program
order: debug prints, `time.sleep`, `os.mkfifo`, `os.open`, the interactive
`input(">>")` prompt, `subprocess.Popen`, starting the watcher thread,
`self._queue.get`, and `proc.terminate()` / `proc.wait()`. -/
inductive Action where
  | printMsg (s : String)
  | sleep (seconds : Nat)
  | mkfifoCall (path : String)
  | openFdCall (path : String)
  | terminalInput (prompt : String)
  | spawnProc (args : List String)
  | startWatcherThread
  | queueGet
  | terminateProc (p : Nat)
  | waitProc (p : Nat)
deriving DecidableEq

/-- Translated from `Handler.BUILD_TARGET` (`microtvm_api_server.py:80`). -/
def BUILD_TARGET : String := "build/main"

/-- Options read by `Handler.open_transport`: `arch` (may be explicitly
`None`), `ovpsim_exe` (has a default, so always a string) and
`ovpsim_extra_args` (absent, empty or a single string). -/
structure Options where
  arch : Option String
  ovpsim_exe : String
  ovpsim_extra_args : Option String
deriving DecidableEq

/-- Translated from `microtvm_api_server.py:307-311`: the extra-argument list
is empty when the option is `None` or `""`, and otherwise the single option
string, verbatim (it is not split into words). -/
def ovpsim_extra (opts : Options) : List String :=
  match opts.ovpsim_extra_args with
  | none => []
  | some s => if s = "" then [] else [s]

/-- Translated from `microtvm_api_server.py:312-330`: the argument vector
handed to `subprocess.Popen`.  The `if True:` branches of the source always
take their first alternative, so they are embedded unconditionally.  (The
`isa` variable computed at lines 304-306 is never used afterwards and is
omitted.) -/
def ovpsim_args (opts : Options) : List String :=
  [opts.ovpsim_exe] ++
  ["--variant", "CV32E40P"] ++
  ["--processorname", "CVE4P"] ++
  ["--override", "riscvOVPsim/cpu/extension_CVE4P/mcountinhibit_reset=0"] ++
  ["--override", "riscvOVPsim/cpu/add_Extensions=MC"] ++
  ["--override", "riscvOVPsim/cpu/unaligned=T"] ++
  ["--override", "riscvOVPsim/cpu/pk/reportExitErrors=T"] ++
  ["--finishonopcode", "0"] ++
  ["--program", BUILD_TARGET] ++
  ovpsim_extra opts

/-- The fixed write-pipe path `self.pipe_dir / "fifo.in"`
(`microtvm_api_server.py:335-337`). -/
def writePipePath : String := "/tmp/fifo.in"

/-- The fixed read-pipe path `self.pipe_dir / "fifo.out"`
(`microtvm_api_server.py:339`). -/
def readPipePath : String := "/tmp/fifo.out"

/-- Result of one `open_transport` run: the returned value or raised
exception, the handler state afterwards, and the recorded action trace. -/
structure OpenResult where
  result : Except PyError TransportTimeouts
  state : HandlerState
  actions : List Action

/-- Translated from `Handler.open_transport` (`microtvm_api_server.py:302-380`)
together with `Handler._wait_for_fvp` (lines 397-408), starting from a freshly
constructed handler (`self._proc = None`, both descriptors `None`).

Environment parameters: `writePipeExists` / `readPipeExists` say whether a
stale fifo file is already present at the fixed path, in which case the
corresponding `os.mkfifo` raises; `readiness` says whether the watcher thread
delivers `True` into `self._queue` within the 120 s bound of
`self._queue.get(timeout=120)`.

Control flow of the source: the first `os.mkfifo(self.write_pipe)` sits in a
`try: ... except: print("eee"); time.sleep(60)` block, so its failure is
caught and execution continues; the second `os.mkfifo(self.read_pipe)` is
unguarded, so its failure propagates as a raw `OSError`.  Then both fifo ends
are opened `O_RDWR | O_NONBLOCK` (modelled as descriptors 3 and 4),
`input(">>")` blocks on the terminal, the engine is spawned (process handle
modelled as 1), the watcher thread is started, and `_wait_for_fvp` either
returns on a `True` queue item or raises `TimeoutError("FVP setup timeout.")`,
which propagates out of `open_transport` with no teardown. -/
def open_transport (opts : Options) (writePipeExists readPipeExists : Bool)
    (readiness : Bool) : OpenResult :=
  let args := ovpsim_args opts
  let preActs : List Action :=
    [.printMsg "open_transport", .printMsg "PROJECT_DIR", .printMsg "args",
     .printMsg "00", .printMsg "11", .printMsg "22", .printMsg "33"]
  let mkfifoWrite : List Action :=
    if writePipeExists then
      [.mkfifoCall writePipePath, .printMsg "eee", .sleep 60]
    else
      [.mkfifoCall writePipePath]
  if readPipeExists then
    { result := .error (.osError readPipePath)
      state := ⟨none, none, none⟩
      actions := preActs ++ mkfifoWrite ++ [.printMsg "44", .mkfifoCall readPipePath] }
  else
    let acts := preActs ++ mkfifoWrite ++
      [.printMsg "44", .mkfifoCall readPipePath, .printMsg "55",
       .openFdCall readPipePath, .printMsg "66", .openFdCall writePipePath,
       .printMsg "77", .terminalInput ">>", .printMsg "A", .spawnProc args,
       .printMsg "B", .printMsg "C", .printMsg "X", .printMsg "Y",
       .startWatcherThread, .printMsg "Z", .queueGet]
    if readiness then
      { result := .ok ⟨0, 0, 0⟩
        state := ⟨some 1, some 3, some 4⟩
        actions := acts ++ [.printMsg "item"] }
    else
      { result := .error (.timeoutError "FVP setup timeout.")
        state := ⟨some 1, some 3, some 4⟩
        actions := acts }

/-- Boolean "is a prefix of" on character lists, used to embed Python's
substring test. -/
def isPrefixB : List Char → List Char → Bool
  | [], _ => true
  | _ :: _, [] => false
  | a :: as, b :: bs => a == b && isPrefixB as bs

/-- Boolean substring containment on character lists. -/
def containsSubList (needle : List Char) : List Char → Bool
  | [] => isPrefixB needle []
  | c :: rest => isPrefixB needle (c :: rest) || containsSubList needle rest

/-- Python's `needle in line` substring test on strings. -/
def strContains (needle line : String) : Bool :=
  containsSubList needle.data line.data

/-- Translated from `Handler._fvp_check_stdout` (`microtvm_api_server.py:383-395`):
iterate over the lines of the child's stdout; on the first line containing
`"RW-"`, `self._queue.put(True)` and `break`; otherwise keep scanning.  The
returned list is the sequence of values delivered into `self._queue`. -/
def fvp_check_stdout : List String → List Bool
  | [] => []
  | line :: rest =>
      if strContains "RW-" line then [true]
      else fvp_check_stdout rest

/-- Translated from `Handler.close_transport` (`microtvm_api_server.py:410-416`):
if `self._proc` is not `None`, clear it, then `proc.terminate()` and
`proc.wait()`; otherwise only the debug print happens.  The method body
contains no `raise` and every path is total, so the embedding has no error
outcome. -/
def close_transport (st : HandlerState) : HandlerState × List Action :=
  match st.proc with
  | some p =>
      ({ st with proc := none },
       [.printMsg "close_transport", .terminateProc p, .waitProc p])
  | none => (st, [.printMsg "close_transport"])

/-- A call made by `read_transport` / `write_transport` to the external
`server.read_with_timeout` / `server.write_with_timeout` helpers, or an
exception raised by the handler itself. -/
inductive TransportCall where
  | readDelegate (fd : Option Nat) (n : Nat) (timeout_sec : Option Int)
  | writeDelegate (fd : Option Nat) (buffer : List Nat) (timeout_sec : Option Int)
  | raiseTransportClosed
deriving DecidableEq

/-- Translated from `Handler.read_transport` (`microtvm_api_server.py:471-472`):
the body is exactly `return server.read_with_timeout(self.read_fd, n,
timeout_sec)` — no guard of any kind — so the embedding records the single
delegated call, carrying whatever `self.read_fd` currently holds (possibly
`None`). -/
def read_transport (st : HandlerState) (n : Nat) (timeout_sec : Option Int) :
    TransportCall :=
  .readDelegate st.read_fd n timeout_sec

/-- Translated from the loop of `Handler.write_transport`
(`microtvm_api_server.py:474-485`).  The preamble copies `data` byte for byte
into `to_write` (the escaping branch is commented out, so the copy is the
identity).  Then `while to_write:` calls
`server.write_with_timeout(self.write_fd, to_write, timeout_sec)` and drops
the written prefix: `to_write = to_write[num_written:]`.  The oracle `wwt`
gives the byte count each underlying call accepts; the result is the list of
delegated calls in order.  `fuel` bounds the recursion (with `fuel =
data.length` it is never exhausted as long as every call accepts at least one
byte). -/
def write_transport_calls (fd : Option Nat) (wwt : List Nat → Nat)
    (timeout_sec : Option Int) : Nat → List Nat → List TransportCall
  | 0, _ => []
  | _ + 1, [] => []
  | fuel + 1, b :: bs =>
      .writeDelegate fd (b :: bs) timeout_sec ::
        write_transport_calls fd wwt timeout_sec fuel
          (List.drop (wwt (b :: bs)) (b :: bs))

/-- The bytes the channel receives from one delegated write call: `os.write`
accepts the first `num_written` bytes of the buffer passed. -/
def deliveredBytes (wwt : List Nat → Nat) : TransportCall → List Nat
  | .writeDelegate _ buf _ => List.take (wwt buf) buf
  | _ => []

/-- All bytes delivered to the channel by one `write_transport` call, in
order. -/
def write_transport_delivered (fd : Option Nat) (wwt : List Nat → Nat)
    (timeout_sec : Option Int) (fuel : Nat) (data : List Nat) : List Nat :=
  ((write_transport_calls fd wwt timeout_sec fuel data).map
    (deliveredBytes wwt)).flatten

/-- The readiness poll: `select.select(rlist, wlist, xlist, timeout)`,
returning the ready subsets of the three descriptor lists. -/
def SelectFn : Type :=
  List Nat → List Nat → List Nat → Option Int → List Nat × List Nat × List Nat

/-- Translated from the first two lines of `Handler._await_ready`
(`microtvm_api_server.py:418-420`): when `timeout_sec is None` and `end_time
is not None`, `timeout_sec = max(0, end_time - time.monotonic())`; in every
other case `timeout_sec` is passed through unchanged. -/
def await_ready_timeout (timeout_sec end_time : Option Int) (now : Int) :
    Option Int :=
  match timeout_sec, end_time with
  | none, some e => some (max 0 (e - now))
  | ts, _ => ts

/-- Translated from `Handler._await_ready` (`microtvm_api_server.py:418-426`):
compute the timeout, call `select.select(rlist, wlist, rlist + wlist,
timeout_sec)`, and raise `server.IoTimeoutError()` exactly when all three
returned lists are empty; otherwise return `True`. -/
def await_ready (sel : SelectFn) (rlist wlist : List Nat)
    (timeout_sec end_time : Option Int) (now : Int) : Except PyError Bool :=
  let ts := await_ready_timeout timeout_sec end_time now
  let res := sel rlist wlist (rlist ++ wlist) ts
  if res.1 = [] ∧ res.2.1 = [] ∧ res.2.2 = [] then .error .ioTimeoutError
  else .ok true

/-- Sample options: the documented defaults (`arch = "rv32gc"`, the bundled
OVPsim executable, no extra arguments). -/
def optsDefault : Options := ⟨some "rv32gc", "riscvOVPsimCOREV.exe", none⟩

/-- Written from the spec's wording for the argument-vector ordering claim:
"flags selecting CPU variant/processor identity". -/
def specCpuIdentityFlags : List String :=
  ["--variant", "CV32E40P", "--processorname", "CVE4P"]

/-- Written from the spec's wording: "feature-extension overrides". -/
def specFeatureExtensionOverrides : List String :=
  ["--override", "riscvOVPsim/cpu/extension_CVE4P/mcountinhibit_reset=0",
   "--override", "riscvOVPsim/cpu/add_Extensions=MC"]

/-- Written from the spec's wording: the "unaligned access allowed"
override. -/
def specUnalignedOverride : List String :=
  ["--override", "riscvOVPsim/cpu/unaligned=T"]

/-- Written from the spec's wording: the exit-error-reporting override. -/
def specExitErrorOverride : List String :=
  ["--override", "riscvOVPsim/cpu/pk/reportExitErrors=T"]

/-- Written from the spec's wording: the opcode-based finish condition. -/
def specFinishCondition : List String := ["--finishonopcode", "0"]

/-- Written from the spec's wording: the path to the built executable
image. -/
def specProgramImage : List String := ["--program", "build/main"]

/-- Written from the spec's wording: "optional user-supplied extra arguments
appended verbatim". -/
def specExtraArgs (opts : Options) : List String :=
  match opts.ovpsim_extra_args with
  | none => []
  | some s => if s = "" then [] else [s]

/-- C9: for every options input, the argument vector for the execution engine
is the executable path followed, in order, by the CPU variant/processor
identity flags, the feature-extension overrides, the unaligned-access
override, the exit-error-reporting override, the opcode-based finish
condition, the path to the built executable image, and finally the
user-supplied extra arguments appended verbatim as the last elements. -/
theorem ovpsim_args_ordered (opts : Options) :
    ovpsim_args opts =
      opts.ovpsim_exe ::
        (specCpuIdentityFlags ++ specFeatureExtensionOverrides ++
          specUnalignedOverride ++ specExitErrorOverride ++
          specFinishCondition ++ specProgramImage ++ specExtraArgs opts) := by
  simp [ovpsim_args, ovpsim_extra, specCpuIdentityFlags,
    specFeatureExtensionOverrides, specUnalignedOverride, specExitErrorOverride,
    specFinishCondition, specProgramImage, specExtraArgs, BUILD_TARGET]

/-- C7: every successful call to `open_transport` returns a timeout
configuration whose three named timeout values (initial-retry, start,
established) are all equal to the same fixed non-negative value, namely 0. -/
theorem open_transport_timeouts_all_zero (opts : Options)
    (writePipeExists readPipeExists readiness : Bool) (t : TransportTimeouts)
    (h : (open_transport opts writePipeExists readPipeExists readiness).result =
      Except.ok t) :
    t.session_start_retry_timeout_sec = 0 ∧
      t.session_start_timeout_sec = 0 ∧
      t.session_established_timeout_sec = 0 := by
  cases readPipeExists <;> cases readiness <;> simp [open_transport] at h
  simp [← h]

/-- Witness for C7: with both pipes creatable and readiness delivered,
`open_transport` succeeds and the theorem applies. -/
theorem open_transport_timeouts_all_zero_witness :
    (open_transport optsDefault false false true).result = Except.ok ⟨0, 0, 0⟩ ∧
      ((0 : Nat) = 0 ∧ (0 : Nat) = 0 ∧ (0 : Nat) = 0) :=
  ⟨rfl, open_transport_timeouts_all_zero optsDefault false false true ⟨0, 0, 0⟩ rfl⟩

/-- C3: for every diagnostic-output stream fed to the readiness watcher, the
watcher delivers the readiness signal at most once: the sequence of values
pushed into the queue is either empty or exactly one `True`, no matter how
many lines contain the marker. -/
theorem fvp_check_stdout_at_most_one_signal (lines : List String) :
    fvp_check_stdout lines = [] ∨ fvp_check_stdout lines = [true] := by
  induction lines with
  | nil => left; rfl
  | cons line rest ih =>
      by_cases h : strContains "RW-" line = true
      · right; simp [fvp_check_stdout, h]
      · simpa [fvp_check_stdout, h] using ih

/-- C8: `close_transport` is idempotent and a no-op without an active
process: after any close the process handle is `None`; closing with no active
process changes nothing beyond the debug print; and a second close is always
that no-op.  The embedded method is total (the source body contains no
`raise`), so no call can raise. -/
theorem close_transport_idempotent (st : HandlerState) :
    (close_transport st).1.proc = none ∧
      (st.proc = none →
        close_transport st = (st, [Action.printMsg "close_transport"])) ∧
      close_transport (close_transport st).1 =
        ((close_transport st).1, [Action.printMsg "close_transport"]) := by
  rcases h : st.proc with _ | p
  · simp [close_transport, h]
  · simp [close_transport, h]

/-- Witness for C8: the theorem applied to the fresh closed handler. -/
theorem close_transport_idempotent_witness :
    (close_transport ⟨none, none, none⟩).1.proc = none ∧
      close_transport ⟨none, none, none⟩ =
        (⟨none, none, none⟩, [Action.printMsg "close_transport"]) :=
  ⟨(close_transport_idempotent ⟨none, none, none⟩).1,
   (close_transport_idempotent ⟨none, none, none⟩).2.1 rfl⟩

/-- C1 (code bug): when a stale write pipe is already present at
`/tmp/fifo.in`, the failing `os.mkfifo(self.write_pipe)` is caught by the bare
`except:` at `microtvm_api_server.py:343-345`, which prints `"eee"`, sleeps 60
seconds, and lets `open_transport` continue to a successful return — the
creation failure is swallowed, not surfaced as a `ResourceCreationError`. -/
theorem creation_failure_swallowed_open_continues :
    (open_transport optsDefault true false true).result = Except.ok ⟨0, 0, 0⟩ ∧
      Action.printMsg "eee" ∈ (open_transport optsDefault true false true).actions ∧
      Action.sleep 60 ∈ (open_transport optsDefault true false true).actions := by
  refine ⟨rfl, ?_, ?_⟩ <;> decide

/-- C2 counterexample: when readiness is never signaled (readiness oracle
`false`, pipes creatable), `open_transport` raises
`TimeoutError("FVP setup timeout.")` but performs no teardown: the child
process handle is still set, both pipe descriptors are still open, and no
terminate action ever appears in the trace — observable partial state
remains, contradicting the claim. -/
theorem open_timeout_leaves_partial_state :
    (open_transport optsDefault false false false).result =
        Except.error (PyError.timeoutError "FVP setup timeout.") ∧
      (open_transport optsDefault false false false).state.proc = some 1 ∧
      (open_transport optsDefault false false false).state.read_fd = some 3 ∧
      (open_transport optsDefault false false false).state.write_fd = some 4 ∧
      Action.terminateProc 1 ∉ (open_transport optsDefault false false false).actions := by
  refine ⟨rfl, rfl, rfl, rfl, ?_⟩; decide

/-- C2 amended: for every call to `open_transport` in which the readiness
marker is not observed within the 120 s wait bound (and pipe creation reaches
the spawn), the call fails with `TimeoutError("FVP setup timeout.")` which
propagates to the caller, and no teardown is performed: the child process
handle and both pipe descriptors remain set and no terminate action occurs. -/
theorem open_timeout_no_teardown (opts : Options) (writePipeExists : Bool) :
    (open_transport opts writePipeExists false false).result =
        Except.error (PyError.timeoutError "FVP setup timeout.") ∧
      (open_transport opts writePipeExists false false).state.proc ≠ none ∧
      (open_transport opts writePipeExists false false).state.read_fd ≠ none ∧
      (open_transport opts writePipeExists false false).state.write_fd ≠ none ∧
      ∀ p, Action.terminateProc p ∉
        (open_transport opts writePipeExists false false).actions := by
  cases writePipeExists
  · simp [open_transport]
  · simp [open_transport]

/-- C6 (code bug): the open path blocks on unsolicited terminal input — every
execution of `open_transport` that reaches the spawn executes `input(">>")`
(`microtvm_api_server.py:360`), a read from the controlling terminal's
interactive input. -/
theorem open_transport_reads_terminal :
    Action.terminalInput ">>" ∈ (open_transport optsDefault false false true).actions := by
  decide

/-- Helper: with enough fuel and every underlying write accepting at least one
byte, the write loop delivers exactly the input bytes, in order. -/
theorem write_transport_flatten_aux (wwt : List Nat → Nat)
    (hw : ∀ buf : List Nat, buf ≠ [] → 1 ≤ wwt buf) (fd : Option Nat)
    (ts : Option Int) :
    ∀ (fuel : Nat) (data : List Nat), data.length ≤ fuel →
      write_transport_delivered fd wwt ts fuel data = data := by
  intro fuel
  induction fuel with
  | zero =>
      intro data h
      have hdata : data = [] := List.eq_nil_of_length_eq_zero (Nat.le_zero.mp h)
      subst hdata
      simp [write_transport_delivered, write_transport_calls]
  | succ fuel ih =>
      intro data h
      cases data with
      | nil => simp [write_transport_delivered, write_transport_calls]
      | cons b bs =>
          have h1 : 1 ≤ wwt (b :: bs) := hw (b :: bs) (by simp)
          have hlen : (List.drop (wwt (b :: bs)) (b :: bs)).length ≤ fuel := by
            rw [List.length_drop, List.length_cons]
            rw [List.length_cons] at h
            omega
          have ihx := ih (List.drop (wwt (b :: bs)) (b :: bs)) hlen
          simp only [write_transport_delivered, write_transport_calls,
            List.map_cons, List.flatten_cons, deliveredBytes] at ihx ⊢
          rw [ihx]
          exact List.take_append_drop _ _

/-- C5: for every byte sequence `data`, `write_transport` loops over partial
writes until `data` is drained: if every underlying `write_with_timeout` call
accepts at least one byte, the bytes delivered to the channel across the
underlying calls are byte-identical to `data` and in original order, and the
total number of bytes accepted by the underlying write calls equals
`data.length`. -/
theorem write_transport_drains_fully (fd : Option Nat) (wwt : List Nat → Nat)
    (ts : Option Int) (data : List Nat)
    (hw : ∀ buf : List Nat, buf ≠ [] → 1 ≤ wwt buf) :
    write_transport_delivered fd wwt ts data.length data = data ∧
      ((write_transport_calls fd wwt ts data.length data).map
        (fun c => (deliveredBytes wwt c).length)).sum = data.length := by
  have h := write_transport_flatten_aux wwt hw fd ts data.length data (le_refl _)
  refine ⟨h, ?_⟩
  have hl := congrArg List.length h
  simpa [write_transport_delivered, List.length_flatten, List.map_map,
    Function.comp] using hl

/-- Witness for C5: a 5-byte payload against a channel accepting 2 bytes per
underlying write is drained completely and delivered in order. -/
theorem write_transport_drains_fully_witness :
    write_transport_delivered none (fun _ => 2) none 5 [1, 2, 3, 4, 5] =
        [1, 2, 3, 4, 5] ∧
      ((write_transport_calls none (fun _ => 2) none 5 [1, 2, 3, 4, 5]).map
        (fun c => (deliveredBytes (fun _ => 2) c).length)).sum = 5 :=
  write_transport_drains_fully none (fun _ => 2) none [1, 2, 3, 4, 5]
    (fun _ _ => by simp)

/-- Helper: every underlying call issued by the write loop is a delegation to
`server.write_with_timeout` carrying the handler's stored write descriptor and
the caller's timeout. -/
theorem write_transport_calls_shape (fd : Option Nat) (wwt : List Nat → Nat)
    (ts : Option Int) :
    ∀ (fuel : Nat) (data : List Nat) (c : TransportCall),
      c ∈ write_transport_calls fd wwt ts fuel data →
      ∃ buf, c = TransportCall.writeDelegate fd buf ts := by
  intro fuel
  induction fuel with
  | zero =>
      intro data c hc
      simp [write_transport_calls] at hc
  | succ fuel ih =>
      intro data c hc
      cases data with
      | nil => simp [write_transport_calls] at hc
      | cons b bs =>
          simp only [write_transport_calls, List.mem_cons] at hc
          rcases hc with rfl | hc
          · exact ⟨b :: bs, rfl⟩
          · exact ih _ c hc

/-- C4 counterexample: with no session open (fresh handler: no descriptors, no
process), `read_transport` does not fail with `TransportClosedError`; its body
is a single unguarded delegation to `server.read_with_timeout` carrying the
`None` descriptor. -/
theorem read_transport_closed_not_transport_closed :
    read_transport ⟨none, none, none⟩ 1 none ≠
        TransportCall.raiseTransportClosed ∧
      read_transport ⟨none, none, none⟩ 1 none =
        TransportCall.readDelegate none 1 none :=
  ⟨by decide, rfl⟩

/-- C4 amended: `read_transport` and `write_transport` perform no open-session
check at all: in every state they delegate unconditionally to the
`server.read_with_timeout` / `server.write_with_timeout` helpers on the stored
descriptors (propagating whatever outcome those helpers produce, including
`TransportClosed`/`TransportTimeout`), and never themselves raise
`TransportClosedError`; when no session is open the descriptor passed along is
`None`. -/
theorem read_write_transport_no_session_check (st : HandlerState) (n : Nat)
    (ts : Option Int) (wwt : List Nat → Nat) (fuel : Nat) (data : List Nat) :
    read_transport st n ts = TransportCall.readDelegate st.read_fd n ts ∧
      read_transport st n ts ≠ TransportCall.raiseTransportClosed ∧
      ∀ c ∈ write_transport_calls st.write_fd wwt ts fuel data,
        c ≠ TransportCall.raiseTransportClosed ∧
        ∃ buf, c = TransportCall.writeDelegate st.write_fd buf ts := by
  refine ⟨rfl, by simp [read_transport], ?_⟩
  intro c hc
  obtain ⟨buf, rfl⟩ :=
    write_transport_calls_shape st.write_fd wwt ts fuel data c hc
  exact ⟨by simp, buf, rfl⟩

/-- Witness for C4 amended: the fresh closed handler delegates the read with a
`None` descriptor, and the single write call of a 1-byte payload is a
delegation, not a `TransportClosedError`. -/
theorem read_write_transport_no_session_check_witness :
    read_transport ⟨none, none, none⟩ 1 none =
        TransportCall.readDelegate none 1 none ∧
      TransportCall.writeDelegate none [7] none ≠
        TransportCall.raiseTransportClosed :=
  ⟨(read_write_transport_no_session_check ⟨none, none, none⟩ 1 none
      (fun _ => 1) 1 [7]).1,
   ((read_write_transport_no_session_check ⟨none, none, none⟩ 1 none
      (fun _ => 1) 1 [7]).2.2
      (TransportCall.writeDelegate none [7] none) (by decide)).1⟩

/-- C10: `_await_ready` raises `IoTimeoutError` exactly when the readiness
poll reports no ready descriptor in any of the read, write, or exceptional
sets; and when `timeout_sec` is absent and `end_time` lies in the past, the
timeout handed to the poll is clamped to 0 via `max(0, end_time - now)`, so a
negative timeout is never used. -/
theorem await_ready_semantics (sel : SelectFn) (rlist wlist : List Nat)
    (timeout_sec end_time : Option Int) (now : Int) :
    (await_ready sel rlist wlist timeout_sec end_time now =
        Except.error PyError.ioTimeoutError ↔
      sel rlist wlist (rlist ++ wlist)
        (await_ready_timeout timeout_sec end_time now) = ([], [], [])) ∧
      (∀ e t : Int, await_ready_timeout none (some e) t =
          some (max 0 (e - t)) ∧ 0 ≤ max 0 (e - t)) ∧
      (∀ e t : Int, e ≤ t → await_ready_timeout none (some e) t = some 0) := by
  refine ⟨?_, fun e t => ⟨rfl, le_max_left 0 (e - t)⟩, fun e t het => ?_⟩
  · simp only [await_ready]
    rcases hsel : sel rlist wlist (rlist ++ wlist)
        (await_ready_timeout timeout_sec end_time now) with ⟨r, w, x⟩
    by_cases hready : r = [] ∧ w = [] ∧ x = []
    · obtain ⟨h1, h2, h3⟩ := hready
      subst h1; subst h2; subst h3
      simp
    · rw [if_neg (by simpa using hready)]
      simp only [Prod.mk.injEq]
      constructor
      · intro hx
        exact Except.noConfusion hx
      · intro hx
        exact absurd ⟨hx.1, hx.2.1, hx.2.2⟩ hready
  · have : max 0 (e - t) = 0 := by omega
    simp [await_ready_timeout, this]

/-- Witness for C10: an always-empty poll answer makes `_await_ready` raise
`IoTimeoutError`, and an `end_time` five units in the past clamps the poll
timeout to 0. -/
theorem await_ready_semantics_witness :
    await_ready (fun _ _ _ _ => ([], [], [])) [0] [] none (some (-5)) 0 =
        Except.error PyError.ioTimeoutError ∧
      await_ready_timeout none (some (-5)) 0 = some 0 :=
  ⟨((await_ready_semantics (fun _ _ _ _ => ([], [], [])) [0] [] none
      (some (-5)) 0).1).mpr rfl,
   (await_ready_semantics (fun _ _ _ _ => ([], [], [])) [0] [] none
      (some (-5)) 0).2.2 (-5) 0 (by decide)⟩

end MicrotvmApiServer
